import Mathlib

/-!
Verification model of the VFD-FC01-Monitor repository.

The development shallowly embeds the two Python source files:

- vfd_modbus.py: the exception-code table and its decoder, and the
  mutex-guarded register transaction functions read_regs and write_reg.
  The outcome of the underlying pymodbus call is modelled by the
  DeviceReply type (the call raised, returned a normal response, or
  returned an error response carrying an optional exception code), and
  read_regs and write_reg map such an outcome to the value returned or
  the IOError message raised by the Python code.  The lock discipline of
  both functions (the whole transaction, including the settling delay,
  runs inside a with-lock block) is modelled separately as a small-step
  system over per-task action lists.

- vfd_monitor_tk.py: the register address constants, the polling loop
  body (readSnapshot is the snapshot-building part of poll_loop, reading
  a 4-register block at REG_BUS_VOLT and a single register at REG_FREQ
  through an oracle that models self.modbus.read_regs), the cadence
  sleep, the fault-display handler show_fault, the start/stop logic of
  the polling thread, and the guard clauses of send_control and
  set_freq.
-/

set_option maxRecDepth 8192

namespace VFD

/-! Register addresses, from vfd_monitor_tk.py lines 24-31. -/

def REG_FREQ : Nat := 0x3001
def REG_BUS_VOLT : Nat := 0x3002
def REG_OUT_VOLT : Nat := 0x3003
def REG_OUT_CURR : Nat := 0x3004
def REG_SPEED : Nat := 0x3005
def REG_CONTROL : Nat := 0x2000
def REG_SET_FREQ : Nat := 0x2001

/-! Exception decoding, from vfd_modbus.py lines 6-19. -/

/-- EXCEPTION_DICT of vfd_modbus.py: the nine-entry vendor exception table. -/
def EXCEPTION_DICT : List (Nat × String) := [
  (0x01, "Illegal command"),
  (0x02, "Illegal data address"),
  (0x03, "Illegal value (bad frame)"),
  (0x04, "Operation failed"),
  (0x05, "Password error"),
  (0x06, "Data frame error (CRC/format)"),
  (0x07, "Write not allowed"),
  (0x08, "Parameter cannot be changed during running"),
  (0x09, "Password protection active")
]

/-- Uppercase hexadecimal digit character for a value below 16, as used by
the Python format specifier X. -/
def hexDigitChar (n : Nat) : Char :=
  if n < 10 then Char.ofNat (48 + n) else Char.ofNat (55 + n)

/-- Uppercase hexadecimal digit list of a natural number, most significant
digit first; fuel-driven recursion (fuel n is always sufficient). -/
def hexCharsOf (fuel n : Nat) : List Char :=
  match fuel with
  | 0 => []
  | f + 1 => if n < 16 then [hexDigitChar n]
             else hexCharsOf f (n / 16) ++ [hexDigitChar (n % 16)]

/-- Python format 02X: uppercase hexadecimal, zero-padded to width two. -/
def format02X (n : Nat) : String :=
  String.mk (List.replicate (2 - (hexCharsOf (n + 1) n).length) '0' ++ hexCharsOf (n + 1) n)

/-- Python format 04X: uppercase hexadecimal, zero-padded to width four. -/
def format04X (n : Nat) : String :=
  String.mk (List.replicate (4 - (hexCharsOf (n + 1) n).length) '0' ++ hexCharsOf (n + 1) n)

/-- decode_exception_code of vfd_modbus.py: dictionary lookup with the
formatted fallback message for unknown codes. -/
def decode_exception_code (code : Nat) : String :=
  match EXCEPTION_DICT.lookup code with
  | some msg => msg
  | none => "Unknown exception code 0x" ++ format02X code

/-- Numeric value of one uppercase hexadecimal digit character. -/
def hexCharVal (ch : Char) : Option Nat :=
  if 48 ≤ ch.toNat ∧ ch.toNat ≤ 57 then some (ch.toNat - 48)
  else if 65 ≤ ch.toNat ∧ ch.toNat ≤ 70 then some (ch.toNat - 55)
  else none

/-- Numeric value of an uppercase hexadecimal digit string. -/
def hexVal (s : String) : Option Nat :=
  s.data.foldl (fun acc ch => acc.bind fun a => (hexCharVal ch).map fun v => 16 * a + v)
    (some 0)

/-- Recovery of the exception code from a decoded message: reverse lookup in
the fixed table, falling back to parsing the two hexadecimal digits after
the 25-character constant text of the unknown-code message.  Used to state
that a decoded message still determines the code it came from. -/
def codeOfDecoded (s : String) : Option Nat :=
  match EXCEPTION_DICT.find? (fun p => p.2 == s) with
  | some p => some p.1
  | none => hexVal (String.mk (s.data.drop 25))

/-! Register transactions, from vfd_modbus.py lines 48-74.  The outcome of
the pymodbus client call (read_holding_registers or write_register) is an
input of the model. -/

/-- Outcome of one pymodbus client call, as observed by read_regs and
write_reg: the call raised an exception with the given text, or it
returned a response object that either is not an error (carrying the
registers payload) or is an error, with the exception_code attribute
present or absent (repr models str(rr) for the absent case). -/
inductive DeviceReply where
  | raised (cause : String)
  | ok (registers : List Nat)
  | errorReply (exception_code : Option Nat) (repr : String)

/-- read_regs of vfd_modbus.py: a raised client exception is re-raised as
IOError with the Comm error prefix; an error response is raised as IOError
with the VFD Exception prefix and the decoded code; a normal response
yields the registers.  The returned Except value carries the IOError
message on the error paths. -/
def read_regs (reply : DeviceReply) : Except String (List Nat) :=
  match reply with
  | DeviceReply.raised cause => Except.error ("Comm error: " ++ cause)
  | DeviceReply.ok registers => Except.ok registers
  | DeviceReply.errorReply (some code) _ =>
      Except.error ("VFD Exception: " ++ decode_exception_code code)
  | DeviceReply.errorReply none repr =>
      Except.error ("VFD Exception: " ++ repr)

/-- write_reg of vfd_modbus.py: same error normalization as read_regs; a
successful acknowledgement returns True. -/
def write_reg (reply : DeviceReply) : Except String Bool :=
  match reply with
  | DeviceReply.raised cause => Except.error ("Comm error: " ++ cause)
  | DeviceReply.ok _ => Except.ok true
  | DeviceReply.errorReply (some code) _ =>
      Except.error ("VFD Exception: " ++ decode_exception_code code)
  | DeviceReply.errorReply none repr =>
      Except.error ("VFD Exception: " ++ repr)

/-! Snapshot construction and the polling loop, from vfd_monitor_tk.py
lines 295-319. -/

/-- Snapshot dictionary pushed by poll_loop: timestamp, optional scaled
frequency, and the four raw telemetry registers. -/
structure Snapshot where
  ts : ℚ
  freq : Option ℚ
  bus : Nat
  out : Nat
  curr : Nat
  speed : Nat
deriving DecidableEq

/-- Message of the Python ValueError raised when unpacking a list whose
length differs from the four expected values. -/
def unpack_error_msg (got : Nat) : String :=
  if got < 4 then "not enough values to unpack (expected 4, got " ++ toString got ++ ")"
  else "too many values to unpack (expected 4)"

/-- Snapshot-building part of poll_loop: read four registers starting at
REG_BUS_VOLT and unpack them, then attempt a single-register read at
REG_FREQ, scaling the raw value by 1/100 and mapping any failure of that
secondary read to an absent frequency.  The rd oracle models
self.modbus.read_regs, taking the address and count and returning either
the register list or the message of the raised IOError. -/
def readSnapshot (ts : ℚ) (rd : Nat → Nat → Except String (List Nat)) :
    Except String Snapshot :=
  match rd REG_BUS_VOLT 4 with
  | Except.error e => Except.error e
  | Except.ok regs =>
    match regs with
    | [bus, outv, curr, speed] =>
        let freq : Option ℚ :=
          match rd REG_FREQ 1 with
          | Except.ok (freq_raw :: _) => some ((freq_raw : ℚ) / 100)
          | _ => none
        Except.ok ⟨ts, freq, bus, outv, curr, speed⟩
    | regs2 => Except.error (unpack_error_msg regs2.length)

/-- Items placed on the ui_queue: data, fault, or log tuples. -/
inductive Event where
  | data (snap : Snapshot)
  | fault (msg : String)
  | log (msg : String)
deriving DecidableEq

/-- Environment of one iteration of poll_loop: the values the iteration
observes of the stop event and the modbus attribute at the loop condition,
the timestamp, the register-read oracle, and the elapsed time of the
transactions of the cycle as measured at the sleep call. -/
structure CycleEnv where
  stopSet : Bool
  modbusPresent : Bool
  ts : ℚ
  regs_read : Nat → Nat → Except String (List Nat)
  elapsed : ℚ

/-- Event pushed by one executed iteration of poll_loop: the snapshot on
success, or the fault carrying the text of the raised error. -/
def poll_cycle (env : CycleEnv) : Event :=
  match readSnapshot env.ts env.regs_read with
  | Except.ok snap => Event.data snap
  | Except.error e => Event.fault e

/-- Cadence sleep at the end of each poll_loop iteration:
max(0, poll_interval - elapsed). -/
def sleep_after (interval elapsed : ℚ) : ℚ := max 0 (interval - elapsed)

/-- Conversion of the configured millisecond interval to the poll_interval
in seconds, from start_polling: interval_ms / 1000.0. -/
def poll_interval_of_ms (ms : Nat) : ℚ := (ms : ℚ) / 1000

/-- poll_loop of vfd_monitor_tk.py over a list of per-iteration
environments: each iteration first tests the loop condition (stop event
not set and modbus present), then performs the cycle and the cadence
sleep.  The result lists, per executed iteration, the pushed event and
the slept duration. -/
def poll_loop (interval : ℚ) : List CycleEnv → List (Event × ℚ)
  | [] => []
  | env :: rest =>
      if !env.stopSet && env.modbusPresent then
        (poll_cycle env, sleep_after interval env.elapsed) :: poll_loop interval rest
      else []

/-! Fault presentation, from vfd_monitor_tk.py lines 393-407. -/

/-- State touched by show_fault: the last fault message, the fault_tree
rows (time, message), the log lines, and the error popups raised. -/
structure FaultUIState where
  lastFaultMsg : Option String
  faultTree : List (String × String)
  logLines : List String
  popups : List String
deriving DecidableEq

/-- show_fault of vfd_monitor_tk.py: always log the message and append a
row to the fault tree; raise the error popup and remember the message
only when it differs from the last fault message (a comparison against an
initial None is always a difference). -/
def show_fault (st : FaultUIState) (now msg : String) : FaultUIState :=
  let st1 : FaultUIState :=
    { st with logLines := st.logLines ++ ["? " ++ msg],
              faultTree := st.faultTree ++ [(now, msg)] }
  if some msg ≠ st1.lastFaultMsg then
    { st1 with lastFaultMsg := some msg, popups := st1.popups ++ [msg] }
  else st1

/-! Poll thread lifecycle, from vfd_monitor_tk.py lines 228-237 and
283-293. -/

/-- Scheduler-related state of VFDMonitorApp: the poll thread (absent, or
present with its alive flag), the stop event, the parsed interval, and a
ghost count of threads ever spawned. -/
structure PollSched where
  pollThread : Option Bool
  stopEventSet : Bool
  pollIntervalMs : Nat
  spawnCount : Nat
deriving DecidableEq

/-- Truthiness of the guard poll_thread and poll_thread.is_alive(). -/
def threadAlive : Option Bool → Bool
  | some alive => alive
  | none => false

/-- start_polling of vfd_monitor_tk.py: return unchanged when a live poll
thread exists; otherwise record the interval, clear the stop event, and
spawn the polling thread. -/
def start_polling (s : PollSched) (intervalMs : Nat) : PollSched :=
  if threadAlive s.pollThread then s
  else { pollThread := some true, stopEventSet := false,
         pollIntervalMs := intervalMs, spawnCount := s.spawnCount + 1 }

/-- Poll-thread teardown part of disconnect: when a thread object exists,
set the stop event and join it; in every case the thread reference is then
cleared. -/
def stop_polling (s : PollSched) : PollSched :=
  if s.pollThread.isSome then
    { s with stopEventSet := true, pollThread := none }
  else { s with pollThread := none }

/-! Guard clauses of the write operations, from vfd_monitor_tk.py lines
242-278. -/

/-- Immediate effects of a button handler on the GUI thread: a direct log
line, a spawned fire-and-forget write task, or an item put on the
ui_queue. -/
inductive UIEffect where
  | guiLog (msg : String)
  | spawnWriteTask (addr : Nat) (value : Int)
  | queuePut (ev : Event)
deriving DecidableEq

/-- send_control of vfd_monitor_tk.py: with no modbus object, log Not
connected and return; otherwise spawn the write task for the control
register. -/
def send_control (connected : Bool) (code : Nat) : List UIEffect :=
  if !connected then [UIEffect.guiLog "Not connected"]
  else [UIEffect.spawnWriteTask REG_CONTROL (Int.ofNat code)]

/-- set_freq of vfd_monitor_tk.py: with no modbus object, log Not
connected and return; with entry text that int() rejects (parsed = none),
log Invalid frequency input and return; otherwise spawn the write task
for the target-frequency register. -/
def set_freq (connected : Bool) (parsed : Option Int) : List UIEffect :=
  if !connected then [UIEffect.guiLog "Not connected"]
  else
    match parsed with
    | none => [UIEffect.guiLog "Invalid frequency input"]
    | some v => [UIEffect.spawnWriteTask REG_SET_FREQ v]

/-- Body of the task spawned by send_control: perform the write and queue
the log line on success or the fault on failure. -/
def send_control_job (code : Nat) (reply : DeviceReply) : Event :=
  match write_reg reply with
  | Except.ok _ => Event.log ("Control 0x" ++ format04X code ++ " sent")
  | Except.error e => Event.fault ("Control failed: " ++ e)

/-- Body of the task spawned by set_freq: perform the write and queue the
log line on success or the fault on failure. -/
def set_freq_job (v : Int) (reply : DeviceReply) : Event :=
  match write_reg reply with
  | Except.ok _ => Event.log ("Freq set to " ++ toString v)
  | Except.error e => Event.fault ("Set freq failed: " ++ e)

/-! Lock discipline of the transaction layer.  Both read_regs and
write_reg have the shape: with self.lock: sleep(0.02); client call;
error check.  The with statement acquires the lock first and releases it
on every exit path, normal or raising.  Each transaction is modelled as a
list of atomic actions; an interleaving semantics over any number of
tasks lets the acquire and release actions follow the semantics of
threading.Lock, while the settle and wire actions carry no precondition,
so mutual exclusion of transactions is a consequence of the program
shape, not an assumption. -/

/-- Atomic actions of one register transaction. -/
inductive Action where
  | acquire
  | settle
  | wire
  | release
deriving DecidableEq

/-- Shape of a with-lock block: acquire, then the body, then a release
that runs on every exit path. -/
def withLock (body : List Action) : List Action :=
  Action.acquire :: body ++ [Action.release]

/-- Action skeleton of read_regs: the settling delay and the wire
transaction both run inside the with-lock block. -/
def read_regs_prog : List Action := withLock [Action.settle, Action.wire]

/-- Action skeleton of write_reg: identical lock discipline. -/
def write_reg_prog : List Action := withLock [Action.settle, Action.wire]

/-- State of the interleaved system: the owner of the transport lock, and
the remaining actions of every task. -/
structure SysState where
  lockOwner : Option Nat
  tasks : Nat → List Action

/-- Program points strictly inside a transaction: the task has executed
its acquire and not yet its release.  The first alternative is the point
at which the settling delay is about to run, so the delay is inside the
exclusive section. -/
def inFlight (p : List Action) : Prop :=
  p = [Action.settle, Action.wire, Action.release] ∨
  p = [Action.wire, Action.release] ∨
  p = [Action.release]

/-- Remainders a task program can have: a full transaction, a point inside
one, or completion. -/
def goodProg (p : List Action) : Prop :=
  p = read_regs_prog ∨ p = write_reg_prog ∨ inFlight p ∨ p = []

/-- Interleaving semantics.  Acquire requires the lock to be free and
takes it; release requires ownership and frees it (the with statement
releases the lock it acquired); the settle and wire actions have no
precondition of their own. -/
inductive Step : SysState → SysState → Prop where
  | acquire (s : SysState) (i : Nat) (rest : List Action)
      (hp : s.tasks i = Action.acquire :: rest)
      (hfree : s.lockOwner = none) :
      Step s ⟨some i, Function.update s.tasks i rest⟩
  | settle (s : SysState) (i : Nat) (rest : List Action)
      (hp : s.tasks i = Action.settle :: rest) :
      Step s ⟨s.lockOwner, Function.update s.tasks i rest⟩
  | wire (s : SysState) (i : Nat) (rest : List Action)
      (hp : s.tasks i = Action.wire :: rest) :
      Step s ⟨s.lockOwner, Function.update s.tasks i rest⟩
  | release (s : SysState) (i : Nat) (rest : List Action)
      (hp : s.tasks i = Action.release :: rest)
      (hown : s.lockOwner = some i) :
      Step s ⟨none, Function.update s.tasks i rest⟩

/-- Reachability from an initial state: the lock free, every task either
about to run a full read or write transaction or absent. -/
inductive Reachable : SysState → Prop where
  | init (tasks0 : Nat → List Action)
      (h : ∀ i, tasks0 i = read_regs_prog ∨ tasks0 i = write_reg_prog ∨ tasks0 i = []) :
      Reachable ⟨none, tasks0⟩
  | step {s t : SysState} (hr : Reachable s) (hs : Step s t) : Reachable t

/-- Lock invariant: every task program is a legal remainder, and a task is
strictly inside a transaction exactly when it owns the lock. -/
def LockInv (s : SysState) : Prop :=
  (∀ i, goodProg (s.tasks i)) ∧ (∀ i, inFlight (s.tasks i) ↔ s.lockOwner = some i)

/-- Witness transaction system: task 0 exists and runs a read transaction,
no other task exists. -/
def witnessTasks : Nat → List Action := fun i => if i = 0 then read_regs_prog else []

/-- Witness transaction system after task 0 has acquired the lock. -/
def witnessState : SysState :=
  ⟨some 0, Function.update witnessTasks 0 [Action.settle, Action.wire, Action.release]⟩

/-! Helper lemmas. -/

theorem lockInv_init (tasks0 : Nat → List Action)
    (h : ∀ i, tasks0 i = read_regs_prog ∨ tasks0 i = write_reg_prog ∨ tasks0 i = []) :
    LockInv ⟨none, tasks0⟩ := by
  constructor
  · intro i
    rcases h i with h2 | h2 | h2 <;> simp [goodProg, h2]
  · intro i
    dsimp only
    constructor
    · intro hf
      exfalso
      rcases h i with h2 | h2 | h2 <;> rw [h2] at hf <;>
        simp [inFlight, read_regs_prog, write_reg_prog, withLock] at hf
    · intro hx
      simp at hx

theorem lockInv_step {s t : SysState} (hinv : LockInv s) (hs : Step s t) : LockInv t := by
  obtain ⟨hgood, hiff⟩ := hinv
  cases hs with
  | acquire i rest hp hfree =>
      have hrest : rest = [Action.settle, Action.wire, Action.release] := by
        rcases hgood i with h | h | h | h <;> rw [hp] at h
        · simpa [read_regs_prog, withLock] using h
        · simpa [write_reg_prog, withLock] using h
        · rcases h with h | h | h <;> simp [inFlight] at h
        · simp at h
      subst hrest
      constructor
      · intro j
        by_cases hj : j = i
        · subst hj
          dsimp only
          rw [Function.update_same]
          exact Or.inr (Or.inr (Or.inl (Or.inl rfl)))
        · dsimp only
          rw [Function.update_noteq hj]
          exact hgood j
      · intro j
        dsimp only
        by_cases hj : j = i
        · subst hj
          rw [Function.update_same]
          simp [inFlight]
        · rw [Function.update_noteq hj]
          constructor
          · intro hf
            have h2 := (hiff j).mp hf
            rw [hfree] at h2
            cases h2
          · intro hx
            exact absurd (Option.some.inj hx).symm hj
  | settle i rest hp =>
      have hrest : rest = [Action.wire, Action.release] := by
        rcases hgood i with h | h | h | h <;> rw [hp] at h
        · exact absurd h (by simp [read_regs_prog, withLock])
        · exact absurd h (by simp [write_reg_prog, withLock])
        · rcases h with h | h | h <;> (simp at h; try exact h)
        · exact absurd h (by simp)
      have hown : s.lockOwner = some i := by
        refine (hiff i).mp ?_
        rw [hp, hrest]
        exact Or.inl rfl
      subst hrest
      constructor
      · intro j
        by_cases hj : j = i
        · subst hj
          dsimp only
          rw [Function.update_same]
          exact Or.inr (Or.inr (Or.inl (Or.inr (Or.inl rfl))))
        · dsimp only
          rw [Function.update_noteq hj]
          exact hgood j
      · intro j
        dsimp only
        by_cases hj : j = i
        · subst hj
          rw [Function.update_same, hown]
          simp [inFlight]
        · rw [Function.update_noteq hj]
          exact hiff j
  | wire i rest hp =>
      have hrest : rest = [Action.release] := by
        rcases hgood i with h | h | h | h <;> rw [hp] at h
        · exact absurd h (by simp [read_regs_prog, withLock])
        · exact absurd h (by simp [write_reg_prog, withLock])
        · rcases h with h | h | h <;> (simp at h; try exact h)
        · exact absurd h (by simp)
      have hown : s.lockOwner = some i := by
        refine (hiff i).mp ?_
        rw [hp, hrest]
        exact Or.inr (Or.inl rfl)
      subst hrest
      constructor
      · intro j
        by_cases hj : j = i
        · subst hj
          dsimp only
          rw [Function.update_same]
          exact Or.inr (Or.inr (Or.inl (Or.inr (Or.inr rfl))))
        · dsimp only
          rw [Function.update_noteq hj]
          exact hgood j
      · intro j
        dsimp only
        by_cases hj : j = i
        · subst hj
          rw [Function.update_same, hown]
          simp [inFlight]
        · rw [Function.update_noteq hj]
          exact hiff j
  | release i rest hp hown =>
      have hrest : rest = [] := by
        rcases hgood i with h | h | h | h <;> rw [hp] at h
        · exact absurd h (by simp [read_regs_prog, withLock])
        · exact absurd h (by simp [write_reg_prog, withLock])
        · rcases h with h | h | h <;> (simp at h; try exact h)
        · exact absurd h (by simp)
      subst hrest
      constructor
      · intro j
        by_cases hj : j = i
        · subst hj
          dsimp only
          rw [Function.update_same]
          exact Or.inr (Or.inr (Or.inr rfl))
        · dsimp only
          rw [Function.update_noteq hj]
          exact hgood j
      · intro j
        dsimp only
        by_cases hj : j = i
        · subst hj
          rw [Function.update_same]
          simp [inFlight]
        · rw [Function.update_noteq hj]
          constructor
          · intro hf
            have h2 := (hiff j).mp hf
            rw [hown] at h2
            exact absurd (Option.some.inj h2).symm hj
          · intro hx
            cases hx

theorem reachable_lockInv {s : SysState} (h : Reachable s) : LockInv s := by
  induction h with
  | init tasks0 h0 => exact lockInv_init tasks0 h0
  | step hr hs ih => exact lockInv_step ih hs

theorem readSnapshot_freq_error (ts : ℚ) (rd : Nat → Nat → Except String (List Nat))
    (b o c s : Nat) (e : String)
    (h1 : rd REG_BUS_VOLT 4 = Except.ok [b, o, c, s])
    (h2 : rd REG_FREQ 1 = Except.error e) :
    readSnapshot ts rd = Except.ok ⟨ts, none, b, o, c, s⟩ := by
  simp [readSnapshot, h1, h2]

theorem readSnapshot_freq_ok (ts : ℚ) (rd : Nat → Nat → Except String (List Nat))
    (b o c s r : Nat) (rest : List Nat)
    (h1 : rd REG_BUS_VOLT 4 = Except.ok [b, o, c, s])
    (h2 : rd REG_FREQ 1 = Except.ok (r :: rest)) :
    readSnapshot ts rd = Except.ok ⟨ts, some ((r : ℚ) / 100), b, o, c, s⟩ := by
  simp [readSnapshot, h1, h2]

theorem readSnapshot_block_error (ts : ℚ) (rd : Nat → Nat → Except String (List Nat))
    (e : String)
    (h1 : rd REG_BUS_VOLT 4 = Except.error e) :
    readSnapshot ts rd = Except.error e := by
  simp [readSnapshot, h1]

/-! Claim theorems. -/

/-- Claim C1: when the four-register block read at REG_BUS_VOLT succeeds
and the single-register frequency read fails, readSnapshot returns the
snapshot with an absent frequency and the four block values in order; when
the block read fails, the whole cycle fails with the underlying error,
and the loop pushes a fault event instead of producing a snapshot. -/
theorem claim_C1_partial_snapshot :
    (∀ (ts : ℚ) (rd : Nat → Nat → Except String (List Nat)) (b o c s : Nat) (e : String),
      rd REG_BUS_VOLT 4 = Except.ok [b, o, c, s] →
      rd REG_FREQ 1 = Except.error e →
      readSnapshot ts rd = Except.ok ⟨ts, none, b, o, c, s⟩) ∧
    (∀ (ts : ℚ) (rd : Nat → Nat → Except String (List Nat)) (e : String),
      rd REG_BUS_VOLT 4 = Except.error e →
      readSnapshot ts rd = Except.error e) ∧
    (∀ (ss mp : Bool) (ts el : ℚ) (rd : Nat → Nat → Except String (List Nat))
        (b o c s : Nat) (e : String),
      rd REG_BUS_VOLT 4 = Except.ok [b, o, c, s] →
      rd REG_FREQ 1 = Except.error e →
      poll_cycle ⟨ss, mp, ts, rd, el⟩ = Event.data ⟨ts, none, b, o, c, s⟩) ∧
    (∀ (ss mp : Bool) (ts el : ℚ) (rd : Nat → Nat → Except String (List Nat)) (e : String),
      rd REG_BUS_VOLT 4 = Except.error e →
      poll_cycle ⟨ss, mp, ts, rd, el⟩ = Event.fault e) := by
  refine ⟨readSnapshot_freq_error, readSnapshot_block_error, ?_, ?_⟩
  · intro ss mp ts el rd b o c s e h1 h2
    simp [poll_cycle, readSnapshot_freq_error ts rd b o c s e h1 h2]
  · intro ss mp ts el rd e h1
    simp [poll_cycle, readSnapshot_block_error ts rd e h1]

/-- Oracle for the C1 witness: the block read succeeds, any other read
fails. -/
def rdPartialW : Nat → Nat → Except String (List Nat) := fun addr _ =>
  if addr = REG_BUS_VOLT then Except.ok [540, 380, 42, 1450]
  else Except.error "Comm error: timeout"

theorem claim_C1_partial_snapshot_witness :
    readSnapshot 0 rdPartialW = Except.ok ⟨0, none, 540, 380, 42, 1450⟩ ∧
    poll_cycle ⟨false, true, 0, fun _ _ => Except.error "boom", 0⟩ = Event.fault "boom" :=
  ⟨claim_C1_partial_snapshot.1 0 rdPartialW 540 380 42 1450 "Comm error: timeout" rfl rfl,
   claim_C1_partial_snapshot.2.2.2 false true 0 0 (fun _ _ => Except.error "boom") "boom" rfl⟩

/-- Claim C2: for every exception code 0x01 through 0x09,
decode_exception_code returns exactly the fixed table message, and for
every other byte value it returns the message Unknown exception code 0xNN
with the code formatted in two-digit uppercase hexadecimal. -/
theorem claim_C2_decode_exception_table :
    (decode_exception_code 0x01 = "Illegal command" ∧
     decode_exception_code 0x02 = "Illegal data address" ∧
     decode_exception_code 0x03 = "Illegal value (bad frame)" ∧
     decode_exception_code 0x04 = "Operation failed" ∧
     decode_exception_code 0x05 = "Password error" ∧
     decode_exception_code 0x06 = "Data frame error (CRC/format)" ∧
     decode_exception_code 0x07 = "Write not allowed" ∧
     decode_exception_code 0x08 = "Parameter cannot be changed during running" ∧
     decode_exception_code 0x09 = "Password protection active") ∧
    (∀ c : Nat, c < 256 → c ∉ EXCEPTION_DICT.map Prod.fst →
      decode_exception_code c = "Unknown exception code 0x" ++ format02X c ∧
      (format02X c).length = 2 ∧
      ∀ ch ∈ (format02X c).data,
        ch ∈ ['0', '1', '2', '3', '4', '5', '6', '7', '8', '9',
              'A', 'B', 'C', 'D', 'E', 'F']) := by
  constructor
  · decide
  · decide

theorem claim_C2_decode_exception_table_witness :
    decode_exception_code 0xAB = "Unknown exception code 0x" ++ format02X 0xAB ∧
    (format02X 0xAB).length = 2 ∧
    ∀ ch ∈ (format02X 0xAB).data,
      ch ∈ ['0', '1', '2', '3', '4', '5', '6', '7', '8', '9',
            'A', 'B', 'C', 'D', 'E', 'F'] :=
  claim_C2_decode_exception_table.2 0xAB (by decide) (by decide)

/-- Claim C3: read_regs and write_reg normalize an underlying serial
failure to an error carrying the Comm error prefix and the cause text, and
a well-formed exception response to a distinct error carrying the VFD
Exception prefix and the decoded message; the two message families never
coincide, the decoded message still determines the exception code it came
from, and every possible result is a success or one of these two error
shapes. -/
theorem claim_C3_error_taxonomy :
    (∀ cause, read_regs (DeviceReply.raised cause) =
        Except.error ("Comm error: " ++ cause)) ∧
    (∀ cause, write_reg (DeviceReply.raised cause) =
        Except.error ("Comm error: " ++ cause)) ∧
    (∀ code r, read_regs (DeviceReply.errorReply (some code) r) =
        Except.error ("VFD Exception: " ++ decode_exception_code code)) ∧
    (∀ code r, write_reg (DeviceReply.errorReply (some code) r) =
        Except.error ("VFD Exception: " ++ decode_exception_code code)) ∧
    (∀ a b : String, ("Comm error: " ++ a) ≠ ("VFD Exception: " ++ b)) ∧
    (∀ c : Nat, c < 256 → codeOfDecoded (decode_exception_code c) = some c) ∧
    (∀ reply, (∃ regs, read_regs reply = Except.ok regs) ∨
      (∃ cause, read_regs reply = Except.error ("Comm error: " ++ cause)) ∨
      (∃ m, read_regs reply = Except.error ("VFD Exception: " ++ m))) ∧
    (∀ reply, write_reg reply = Except.ok true ∨
      (∃ cause, write_reg reply = Except.error ("Comm error: " ++ cause)) ∨
      (∃ m, write_reg reply = Except.error ("VFD Exception: " ++ m))) := by
  refine ⟨fun _ => rfl, fun _ => rfl, fun _ _ => rfl, fun _ _ => rfl, ?_, ?_, ?_, ?_⟩
  · intro a b h
    have h2 : ("Comm error: " ++ a).data = ("VFD Exception: " ++ b).data := by rw [h]
    simp [String.data_append] at h2
  · decide
  · intro reply
    cases reply with
    | raised cause => exact Or.inr (Or.inl ⟨cause, rfl⟩)
    | ok registers => exact Or.inl ⟨registers, rfl⟩
    | errorReply code r =>
        cases code with
        | none => exact Or.inr (Or.inr ⟨r, rfl⟩)
        | some c => exact Or.inr (Or.inr ⟨decode_exception_code c, rfl⟩)
  · intro reply
    cases reply with
    | raised cause => exact Or.inr (Or.inl ⟨cause, rfl⟩)
    | ok registers => exact Or.inl rfl
    | errorReply code r =>
        cases code with
        | none => exact Or.inr (Or.inr ⟨r, rfl⟩)
        | some c => exact Or.inr (Or.inr ⟨decode_exception_code c, rfl⟩)

theorem claim_C3_error_taxonomy_witness :
    read_regs (DeviceReply.raised "timeout") =
      Except.error ("Comm error: " ++ "timeout") ∧
    ("Comm error: " ++ "x") ≠ ("VFD Exception: " ++ "x") ∧
    codeOfDecoded (decode_exception_code 4) = some 4 :=
  ⟨claim_C3_error_taxonomy.1 "timeout",
   claim_C3_error_taxonomy.2.2.2.2.1 "x" "x",
   claim_C3_error_taxonomy.2.2.2.2.2.1 4 (by decide)⟩

/-- Claim C4: the derived frequency is the raw frequency register value
divided by 100, and the concrete scenario with block values
[540, 380, 42, 1450] and raw frequency 5000 yields the snapshot with
frequency 50, bus 540, out 380, curr 42, speed 1450. -/
theorem claim_C4_frequency_scaling :
    (∀ (ts : ℚ) (rd : Nat → Nat → Except String (List Nat)) (b o c s r : Nat)
        (rest : List Nat),
      rd REG_BUS_VOLT 4 = Except.ok [b, o, c, s] →
      rd REG_FREQ 1 = Except.ok (r :: rest) →
      readSnapshot ts rd = Except.ok ⟨ts, some ((r : ℚ) / 100), b, o, c, s⟩) ∧
    (∀ (ts : ℚ) (rd : Nat → Nat → Except String (List Nat)),
      rd REG_BUS_VOLT 4 = Except.ok [540, 380, 42, 1450] →
      rd REG_FREQ 1 = Except.ok [5000] →
      readSnapshot ts rd = Except.ok ⟨ts, some 50, 540, 380, 42, 1450⟩) := by
  refine ⟨readSnapshot_freq_ok, ?_⟩
  intro ts rd h1 h2
  have h3 := readSnapshot_freq_ok ts rd 540 380 42 1450 5000 [] h1 h2
  have hval : ((5000 : Nat) : ℚ) / 100 = 50 := by norm_num
  rw [hval] at h3
  exact h3

/-- Oracle for the C4 witness: block and frequency reads both succeed with
the scenario values. -/
def rdFullW : Nat → Nat → Except String (List Nat) := fun addr _ =>
  if addr = REG_BUS_VOLT then Except.ok [540, 380, 42, 1450] else Except.ok [5000]

theorem claim_C4_frequency_scaling_witness :
    readSnapshot 0 rdFullW = Except.ok ⟨0, some 50, 540, 380, 42, 1450⟩ :=
  claim_C4_frequency_scaling.2 0 rdFullW rfl rfl

/-- Claim C5: the polling loop runs exactly the iterations up to the first
one that observes the stop signal set or the modbus object gone,
independent of the outcome of each read; an iteration whose reads fail
pushes a fault event carrying the error text, performs the cadence sleep,
and the loop still processes the remaining iterations; an iteration that
observes the stop signal, or the modbus object gone, ends the loop. -/
theorem claim_C5_loop_resilience :
    (∀ (interval : ℚ) (envs : List CycleEnv),
      poll_loop interval envs =
        (envs.takeWhile fun env => !env.stopSet && env.modbusPresent).map
          fun env => (poll_cycle env, sleep_after interval env.elapsed)) ∧
    (∀ (interval ts el : ℚ) (e : String) (rest : List CycleEnv),
      poll_loop interval (⟨false, true, ts, fun _ _ => Except.error e, el⟩ :: rest) =
        (Event.fault e, sleep_after interval el) :: poll_loop interval rest) ∧
    (∀ (interval ts el : ℚ) (mp : Bool) (rd : Nat → Nat → Except String (List Nat))
        (rest : List CycleEnv),
      poll_loop interval (⟨true, mp, ts, rd, el⟩ :: rest) = []) ∧
    (∀ (interval ts el : ℚ) (ss : Bool) (rd : Nat → Nat → Except String (List Nat))
        (rest : List CycleEnv),
      poll_loop interval (⟨ss, false, ts, rd, el⟩ :: rest) = []) := by
  refine ⟨?_, ?_, ?_, ?_⟩
  · intro interval envs
    induction envs with
    | nil => rfl
    | cons env rest ih =>
        by_cases hc : (!env.stopSet && env.modbusPresent) = true
        · simp only [poll_loop, hc, if_true, List.takeWhile_cons, List.map_cons, ih]
        · rw [Bool.not_eq_true] at hc
          simp only [poll_loop, hc, Bool.false_eq_true, if_false, List.takeWhile_cons,
            List.map_nil]
  · intro interval ts el e rest
    simp [poll_loop, poll_cycle, readSnapshot]
  · intro interval ts el mp rd rest
    simp [poll_loop]
  · intro interval ts el ss rd rest
    simp [poll_loop]

/-- Claim C6: the cadence sleep equals max(0, interval - elapsed): it is
the exact remainder of the interval when the transactions of the cycle
finished within it, zero when they overran it, never negative; a 500 ms
configured interval gives a poll interval of one half second, and with 150
ms of work the sleep is exactly 350 ms. -/
theorem claim_C6_cadence_sleep :
    (∀ interval elapsed : ℚ, elapsed ≤ interval →
      sleep_after interval elapsed = interval - elapsed) ∧
    (∀ interval elapsed : ℚ, interval ≤ elapsed →
      sleep_after interval elapsed = 0) ∧
    (∀ interval elapsed : ℚ, 0 ≤ sleep_after interval elapsed) ∧
    poll_interval_of_ms 500 = 1 / 2 ∧
    sleep_after (poll_interval_of_ms 500) (3 / 20) = 7 / 20 := by
  refine ⟨?_, ?_, ?_, by norm_num [poll_interval_of_ms], ?_⟩
  · intro i e h
    unfold sleep_after
    exact max_eq_right (by linarith)
  · intro i e h
    unfold sleep_after
    exact max_eq_left (by linarith)
  · intro i e
    exact le_max_left 0 _
  · unfold sleep_after poll_interval_of_ms
    rw [show ((500 : Nat) : ℚ) / 1000 - 3 / 20 = 7 / 20 by norm_num]
    exact max_eq_right (by norm_num)

theorem claim_C6_cadence_sleep_witness :
    sleep_after (1 / 2) (3 / 20) = 1 / 2 - 3 / 20 ∧
    sleep_after (1 / 10) (1 / 2) = 0 :=
  ⟨claim_C6_cadence_sleep.1 (1 / 2) (3 / 20) (by norm_num),
   claim_C6_cadence_sleep.2.1 (1 / 10) (1 / 2) (by norm_num)⟩

/-- Claim C7: every fault is appended to the cumulative fault history and
to the log; a fault equal to the remembered last fault message raises no
new popup, while a different one raises exactly one popup; after handling
a fault the remembered message is that fault, so the suppression is
exactly of back-to-back identical fault text. -/
theorem claim_C7_fault_dedup :
    (∀ (st : FaultUIState) (now msg : String),
      (show_fault st now msg).faultTree = st.faultTree ++ [(now, msg)]) ∧
    (∀ (st : FaultUIState) (now msg : String),
      (show_fault st now msg).logLines = st.logLines ++ ["? " ++ msg]) ∧
    (∀ (st : FaultUIState) (now msg : String),
      st.lastFaultMsg = some msg → (show_fault st now msg).popups = st.popups) ∧
    (∀ (st : FaultUIState) (now msg : String),
      st.lastFaultMsg ≠ some msg →
        (show_fault st now msg).popups = st.popups ++ [msg]) ∧
    (∀ (st : FaultUIState) (now msg : String),
      (show_fault st now msg).lastFaultMsg = some msg) := by
  refine ⟨?_, ?_, ?_, ?_, ?_⟩ <;> intro st now msg
  · by_cases h : some msg = st.lastFaultMsg <;> simp [show_fault, h]
  · by_cases h : some msg = st.lastFaultMsg <;> simp [show_fault, h]
  · intro h
    simp [show_fault, h]
  · intro h
    have h2 : some msg ≠ st.lastFaultMsg := fun hx => h hx.symm
    simp [show_fault, h2]
  · by_cases h : some msg = st.lastFaultMsg <;> simp [show_fault, h]

theorem claim_C7_fault_dedup_witness :
    (show_fault ⟨some "CRC", [], [], []⟩ "12:00:00" "CRC").popups = [] ∧
    (show_fault ⟨some "CRC", [], [], []⟩ "12:00:01" "timeout").popups = ["timeout"] :=
  ⟨claim_C7_fault_dedup.2.2.1 ⟨some "CRC", [], [], []⟩ "12:00:00" "CRC" rfl,
   claim_C7_fault_dedup.2.2.2.1 ⟨some "CRC", [], [], []⟩ "12:00:01" "timeout" (by decide)⟩

/-- Claim C8: starting the scheduler while a live polling thread exists
changes nothing and spawns no second loop; stopping with no thread object
changes nothing; starting while no live thread exists spawns exactly one
loop, records the interval, and clears the stop event. -/
theorem claim_C8_start_stop_idempotent :
    (∀ (s : PollSched) (ms : Nat), threadAlive s.pollThread = true →
      start_polling s ms = s) ∧
    (∀ s : PollSched, s.pollThread = none → stop_polling s = s) ∧
    (∀ (s : PollSched) (ms : Nat), threadAlive s.pollThread = false →
      start_polling s ms =
        { pollThread := some true, stopEventSet := false,
          pollIntervalMs := ms, spawnCount := s.spawnCount + 1 }) := by
  refine ⟨?_, ?_, ?_⟩
  · intro s ms h
    simp [start_polling, h]
  · intro s h
    cases s with
    | mk pt se ms sc =>
        simp only at h
        subst h
        simp [stop_polling]
  · intro s ms h
    simp [start_polling, h]

theorem claim_C8_start_stop_idempotent_witness :
    start_polling ⟨some true, false, 500, 1⟩ 500 = ⟨some true, false, 500, 1⟩ ∧
    stop_polling ⟨none, true, 500, 1⟩ = ⟨none, true, 500, 1⟩ ∧
    (start_polling ⟨none, true, 500, 1⟩ 250).spawnCount = 2 :=
  ⟨claim_C8_start_stop_idempotent.1 ⟨some true, false, 500, 1⟩ 500 rfl,
   claim_C8_start_stop_idempotent.2.1 ⟨none, true, 500, 1⟩ rfl,
   by rw [claim_C8_start_stop_idempotent.2.2 ⟨none, true, 500, 1⟩ 250 rfl]⟩

/-- Claim C9: in every state reachable from an initial configuration of
any number of tasks each about to run one read or write transaction, a
task is strictly inside its transaction (from before its settling delay to
its release) exactly when it owns the transport lock, so at most one
transaction is in flight at any time; the transaction skeletons end with
a release on every path, and the point at which the settling delay runs
counts as in flight. -/
theorem claim_C9_mutual_exclusion (s : SysState) (h : Reachable s) :
    (∀ i, inFlight (s.tasks i) ↔ s.lockOwner = some i) ∧
    (∀ i j, inFlight (s.tasks i) → inFlight (s.tasks j) → i = j) ∧
    read_regs_prog.getLast? = some Action.release ∧
    write_reg_prog.getLast? = some Action.release ∧
    inFlight [Action.settle, Action.wire, Action.release] := by
  have inv := reachable_lockInv h
  refine ⟨inv.2, ?_, by simp [read_regs_prog, withLock], by simp [write_reg_prog, withLock],
    Or.inl rfl⟩
  intro i j hi hj
  have h1 := (inv.2 i).mp hi
  have h2 := (inv.2 j).mp hj
  rw [h1] at h2
  exact Option.some.inj h2

theorem claim_C9_mutual_exclusion_witness :
    witnessState.lockOwner = some 0 ∧ inFlight (witnessState.tasks 0) := by
  have hstep : Step ⟨none, witnessTasks⟩ witnessState :=
    Step.acquire ⟨none, witnessTasks⟩ 0 [Action.settle, Action.wire, Action.release]
      (by simp [witnessTasks, read_regs_prog, withLock]) rfl
  have hreach : Reachable witnessState :=
    Reachable.step
      (Reachable.init witnessTasks (by
        intro i
        by_cases h : i = 0 <;> simp [witnessTasks, h]))
      hstep
  have hin : inFlight (witnessState.tasks 0) := by
    simp [witnessState, Function.update_same, inFlight]
  exact ⟨((claim_C9_mutual_exclusion witnessState hreach).1 0).mp hin, hin⟩

/-- Claim C10: with no connection, send_control and set_freq only log the
Not connected line: no write task is spawned and nothing is queued, so no
fault event arises; set_freq with entry text rejected by int() only logs
Invalid frequency input; with a connection and a parsed value the single
effect of set_freq is the spawned write task. -/
theorem claim_C10_guard_clauses :
    (∀ code : Nat, send_control false code = [UIEffect.guiLog "Not connected"]) ∧
    (∀ parsed : Option Int, set_freq false parsed = [UIEffect.guiLog "Not connected"]) ∧
    set_freq true none = [UIEffect.guiLog "Invalid frequency input"] ∧
    (∀ (code a : Nat) (v : Int),
      UIEffect.spawnWriteTask a v ∉ send_control false code) ∧
    (∀ (code : Nat) (ev : Event), UIEffect.queuePut ev ∉ send_control false code) ∧
    (∀ (a : Nat) (v : Int), UIEffect.spawnWriteTask a v ∉ set_freq true none) ∧
    (∀ v : Int, set_freq true (some v) = [UIEffect.spawnWriteTask REG_SET_FREQ v]) := by
  refine ⟨fun _ => rfl, fun _ => rfl, rfl, ?_, ?_, ?_, fun _ => rfl⟩
  · intro code a v h
    simp [send_control] at h
  · intro code ev h
    simp [send_control] at h
  · intro a v h
    simp [set_freq] at h

theorem claim_C10_guard_clauses_witness :
    send_control false 5 = [UIEffect.guiLog "Not connected"] ∧
    UIEffect.spawnWriteTask REG_CONTROL 5 ∉ send_control false 5 :=
  ⟨claim_C10_guard_clauses.1 5,
   claim_C10_guard_clauses.2.2.2.1 5 REG_CONTROL 5⟩

end VFD
